import Mathlib

set_option linter.unusedVariables false

/-!
Formal model of the sys_health_monitor kernel module core
(src/sys_health_monitor.c).  Machine integers are modelled as Nat with
explicit reductions modulo 2 ^ 32 and 2 ^ 64 where the C types (u32, u64,
unsigned long) truncate.  The module-parameter thresholds are C ints,
modelled as Int and converted to unsigned exactly as the C usual
arithmetic conversions do in the u32-versus-int comparisons of
poll_metrics.  The shared snapshot of lines 151 to 153 and 176 to 178 is
additionally given a fine grained interleaving model in which the struct
assignment moves one field at a time under the spinlock, so that the
atomicity of publish with respect to concurrent readers is a theorem about
all interleavings rather than an assumption.
-/

/-- Struct sys_snapshot (lines 74 to 80 of the source): a u64 timestamp in
milliseconds and four u32 metric fields. -/
structure Snapshot where
  ts_ms : Nat
  free_mem_mib : Nat
  total_mem_mib : Nat
  load_pct : Nat
  io_rate_sps : Nat
  deriving DecidableEq, Repr

/-- Zero-valued snapshot: the static struct variable is zero initialised
before the first publish. -/
def zeroSnap : Snapshot := ⟨0, 0, 0, 0, 0⟩

/-- Field view of a snapshot, indexed 0 to 4 in struct order; used by the
fine grained copy model in which the struct assignments of lines 152 and
177 move one field at a time. -/
def Snapshot.field (s : Snapshot) : Fin 5 → Nat
  | 0 => s.ts_ms
  | 1 => s.free_mem_mib
  | 2 => s.total_mem_mib
  | 3 => s.load_pct
  | 4 => s.io_rate_sps

/-- Function collect_memory (lines 83 to 89): page counts shifted right by
10 and truncated to u32 by the cast; returns (free_mib, total_mib). -/
def collect_memory (freeram totalram : Nat) : Nat × Nat :=
  ((freeram >>> 10) % 2 ^ 32, (totalram >>> 10) % 2 ^ 32)

/-- Divisor used by collect_load_percent, from
max_t(unsigned int, num_online_cpus(), 1) at line 95. -/
def effective_cores (ncpus : Nat) : Nat := max ncpus 1

/-- Function collect_load_percent (lines 91 to 97): fixed point one minute
load average times 100 in u64, shifted right by FSHIFT = 11, divided by
the floored online core count, truncated to u32 on return. -/
def collect_load_percent (avg_fp ncpus : Nat) : Nat :=
  (((avg_fp * 100) % 2 ^ 64) >>> 11) / effective_cores ncpus % 2 ^ 32

/-- Delta step of collect_disk_ios (lines 130 to 138): a last_io_ticks value
of zero is treated as no prior sample; otherwise the u64 difference wraps
modulo 2 ^ 64, is divided by the 5 second window and truncated to u32 on
return.  Returns (rate, new last_io_ticks). -/
def rate_delta_step (last io_total : Nat) : Nat × Nat :=
  if last = 0 then (0, io_total)
  else (((io_total + 2 ^ 64 - last) % 2 ^ 64) / 5 % 2 ^ 32, io_total)

/-- Modelled from the spec, section 4.2: the saturating-at-zero rate,
rate = (counter - previous) / interval with the delta clamped at zero when
the counter decreases.  Nat subtraction saturates at zero.  This is the
reading of the spec to be compared with rate_delta_step. -/
def rate_saturating (prev counter : Nat) : Nat := (counter - prev) / 5

/-- Conversion applied by the C usual arithmetic conversions when an int
module parameter is compared against a u32 snapshot field in poll_metrics
(lines 155, 159, 164): the int is converted to unsigned, that is reduced
modulo 2 ^ 32. -/
def toU32 (t : Int) : Nat := (t % (2 ^ 32 : Int)).toNat

/-- Alert events emitted by the three threshold checks of poll_metrics. -/
inductive Alert where
  | mem : Alert
  | cpu : Alert
  | io : Alert
  deriving DecidableEq, Repr

/-- Threshold evaluation of poll_metrics (lines 155 to 167): three
independent checks, in source order, each appending its alert; the
comparisons are the C u32-versus-int comparisons. -/
def evaluate (s : Snapshot) (mem_t cpu_t io_t : Int) : List Alert :=
  (if s.free_mem_mib < toU32 mem_t then [Alert.mem] else []) ++
  (if s.load_pct > toU32 cpu_t then [Alert.cpu] else []) ++
  (if s.io_rate_sps > toU32 io_t then [Alert.io] else [])

/-- State touched by the fallback path of collect_disk_ios: the static
last_io_ticks counter (line 69) and the io_fallback_logged flag (line 70),
both zero initialised at load. -/
structure IoState where
  last_io_ticks : Nat
  io_fallback_logged : Bool
  deriving DecidableEq, Repr

/-- Fallback path of collect_disk_ios (lines 113 to 138): emits the one
time selection diagnostic when io_fallback_logged is still false and then
sets the flag; sums the PGPGIN and PGPGOUT event counters in u64, converts
pages to 512 byte sectors with the PAGE_SIZE >> 9 multiplier, and applies
the delta step.  Returns (diagnostic emitted, rate, new state). -/
def collect_disk_ios_fallback (pageSize : Nat) (st : IoState)
    (pgpgin pgpgout : Nat) : Bool × Nat × IoState :=
  let emitted := !st.io_fallback_logged
  let io_total :=
    (((pgpgin % 2 ^ 64 + pgpgout % 2 ^ 64) % 2 ^ 64) * (pageSize >>> 9)) % 2 ^ 64
  let r := rate_delta_step st.last_io_ticks io_total
  (emitted, r.1, ⟨r.2, true⟩)

/-- Run of successive fallback ticks, each fed by its pair of vm event
counters, returning the list of diagnostic emissions. -/
def run_fallback (pageSize : Nat) (st : IoState) :
    List (Nat × Nat) → List Bool
  | [] => []
  | t :: ts =>
    let r := collect_disk_ios_fallback pageSize st t.1 t.2
    r.1 :: run_fallback pageSize r.2.2 ts

/-- Module state carried across ticks by poll_metrics: the static
last_io_ticks (line 69), the io_fallback_logged flag (line 70) and the
shared snapshot struct (line 80), all zero initialised at load. -/
structure ModState where
  last_io_ticks : Nat
  io_fallback_logged : Bool
  snapshot : Snapshot
  deriving DecidableEq, Repr

/-- Conversion jiffies_to_msecs used at line 149: returns unsigned int. -/
def jiffies_to_msecs (hz j : Nat) : Nat := (j * 1000 / hz) % 2 ^ 32

/-- Conversion msecs_to_jiffies used at lines 169, 217: the number of timer
ticks covering ms milliseconds, rounding up. -/
def msecs_to_jiffies (hz ms : Nat) : Nat := (ms * hz + 999) / 1000

/-- Per tick inputs read from the kernel environment: tFire is the jiffies
instant the timer fired (never read by the code), tStamp and tRearm are the
values returned by the two jiffies reads at lines 149 and 169 with
tFire <= tStamp <= tRearm, then the sysinfo page counts, the fixed point
load average with the online core count, and the cumulative sector counter
summed over all disks. -/
structure TickEnv where
  tFire : Nat
  tStamp : Nat
  tRearm : Nat
  freeram : Nat
  totalram : Nat
  avg_fp : Nat
  ncpus : Nat
  io_counter : Nat
  deriving DecidableEq, Repr

/-- Timer callback poll_metrics (lines 142 to 170) on the direct disk stats
path: collects memory, load and the I/O rate, stamps the time, publishes
the snapshot, evaluates the thresholds and rearms the timer at the jiffies
value read at line 169 plus msecs_to_jiffies(5000).  Returns the published
snapshot, the emitted alerts, the jiffies value the next tick is armed at,
and the new module state. -/
def poll_metrics (hz : Nat) (mem_t cpu_t io_t : Int) (env : TickEnv)
    (st : ModState) : Snapshot × List Alert × Nat × ModState :=
  let m := collect_memory env.freeram env.totalram
  let load := collect_load_percent env.avg_fp env.ncpus
  let r := rate_delta_step st.last_io_ticks (env.io_counter % 2 ^ 64)
  let tmp : Snapshot :=
    { ts_ms := jiffies_to_msecs hz env.tStamp
      free_mem_mib := m.1
      total_mem_mib := m.2
      load_pct := load
      io_rate_sps := r.1 }
  (tmp, evaluate tmp mem_t cpu_t io_t, env.tRearm + msecs_to_jiffies hz 5000,
    { last_io_ticks := r.2
      io_fallback_logged := st.io_fallback_logged
      snapshot := tmp })

/-- Reader proc_show (lines 173 to 189): copies the shared snapshot struct
out under the lock and renders exactly its five fields. -/
def proc_show (st : ModState) : Snapshot := st.snapshot

/-- Zero initialised module statics at load time. -/
def mod_init_state : ModState := ⟨0, false, zeroSnap⟩

/-- Snapshot selected by a version number in the fine grained model:
version 0 is the zero initialised struct, version v + 1 the snapshot of the
v-th publish. -/
def snapOfVer (pubs : Nat → Snapshot) : Nat → Snapshot
  | 0 => zeroSnap
  | v + 1 => pubs v

/-- Execution contexts of the concurrency model: the single timer driven
writer of poll_metrics and the proc_show readers. -/
inductive Ctx where
  | writer : Ctx
  | reader : Nat → Ctx
  deriving DecidableEq, Repr

/-- One cell of the shared struct in the fine grained model, carrying its
value and, as a ghost tag, the version of the publish that wrote it. -/
structure Cell where
  val : Nat
  ver : Nat
  deriving DecidableEq, Repr

/-- Local state of one reader: a program counter (0 waiting, 1 to 5 holding
the lock having copied pc - 1 fields, 6 holding the lock with all five
fields copied, 7 finished) and the copy buffer of line 175. -/
structure RSt where
  pc : Nat
  buf : Fin 5 → Cell

/-- Global state of the fine grained model: the spinlock owner (none means
free), the five cells of the shared struct, the writer program counter
(0 idle, 1 to 5 holding the lock having written pc - 1 fields, 6 holding
the lock with all five fields written), the number of completed publishes,
and the state of every reader. -/
structure Sys where
  lock : Option Ctx
  store : Fin 5 → Cell
  wpc : Nat
  widx : Nat
  rs : Nat → RSt

/-- Load time state: lock free, struct zeroed, no publish completed, every
reader waiting. -/
def initSys : Sys :=
  { lock := none
    store := fun _ => ⟨0, 0⟩
    wpc := 0
    widx := 0
    rs := fun _ => ⟨0, fun _ => ⟨0, 0⟩⟩ }

/-- Interleaved small steps of the fine grained model.  The writer
publishes the snapshots pubs 0, pubs 1, ... in order: it acquires the
spinlock (line 151), copies the five struct fields one at a time (the
struct assignment of line 152), and releases the lock (line 153).  Each
reader acquires the same lock (line 176), copies the five fields one at a
time into its buffer (the struct read of line 177), and releases the lock
(line 178).  Acquiring requires the lock to be free and every access to
the shared struct requires holding it, exactly the spinlock discipline of
the source. -/
inductive Step (pubs : Nat → Snapshot) : Sys → Sys → Prop where
  | wAcquire (s : Sys) (h1 : s.lock = none) (h2 : s.wpc = 0) :
      Step pubs s { s with lock := some Ctx.writer, wpc := 1 }
  | wWrite (s : Sys) (k : Fin 5) (h1 : s.lock = some Ctx.writer)
      (h2 : s.wpc = k.val + 1) :
      Step pubs s { s with
        store := Function.update s.store k ⟨(pubs s.widx).field k, s.widx + 1⟩
        wpc := k.val + 2 }
  | wRelease (s : Sys) (h1 : s.lock = some Ctx.writer) (h2 : s.wpc = 6) :
      Step pubs s { s with lock := none, wpc := 0, widx := s.widx + 1 }
  | rAcquire (s : Sys) (i : Nat) (h1 : s.lock = none)
      (h2 : (s.rs i).pc = 0) :
      Step pubs s { s with
        lock := some (Ctx.reader i)
        rs := Function.update s.rs i ⟨1, (s.rs i).buf⟩ }
  | rRead (s : Sys) (i : Nat) (k : Fin 5)
      (h1 : s.lock = some (Ctx.reader i)) (h2 : (s.rs i).pc = k.val + 1) :
      Step pubs s { s with
        rs := Function.update s.rs i
          ⟨k.val + 2, Function.update (s.rs i).buf k (s.store k)⟩ }
  | rRelease (s : Sys) (i : Nat) (h1 : s.lock = some (Ctx.reader i))
      (h2 : (s.rs i).pc = 6) :
      Step pubs s { s with
        lock := none
        rs := Function.update s.rs i ⟨7, (s.rs i).buf⟩ }

/-- Reachability from the load time state under interleaved steps. -/
def Reachable (pubs : Nat → Snapshot) (s : Sys) : Prop :=
  Relation.ReflTransGen (Step pubs) initSys s

/-- Inductive invariant of the fine grained model: the writer counter is
bounded and a busy writer holds the lock; the struct cells split exactly
between the incoming publish and the previous complete value according to
the writer progress; reader counters are bounded, an in-section reader
holds the lock, has copied a prefix of the current struct, and a finished
reader holds the complete value of one single version. -/
def SysInv (pubs : Nat → Snapshot) (s : Sys) : Prop :=
  s.wpc ≤ 6 ∧
  (s.wpc ≠ 0 → s.lock = some Ctx.writer) ∧
  (∀ k : Fin 5,
    (k.val + 2 ≤ s.wpc → s.store k = ⟨(pubs s.widx).field k, s.widx + 1⟩) ∧
    (s.wpc ≤ k.val + 1 → s.store k = ⟨(snapOfVer pubs s.widx).field k, s.widx⟩)) ∧
  (∀ i : Nat,
    (s.rs i).pc ≤ 7 ∧
    (1 ≤ (s.rs i).pc ∧ (s.rs i).pc ≤ 6 → s.lock = some (Ctx.reader i)) ∧
    (∀ k : Fin 5, k.val + 2 ≤ (s.rs i).pc ∧ (s.rs i).pc ≤ 6 →
      (s.rs i).buf k = s.store k) ∧
    ((s.rs i).pc = 7 →
      ∃ v, ∀ k : Fin 5, (s.rs i).buf k = ⟨(snapOfVer pubs v).field k, v⟩))

/-- Helper: every field of the zero snapshot is zero. -/
theorem zeroSnap_field (k : Fin 5) : zeroSnap.field k = 0 := by
  fin_cases k <;> rfl

/-- Helper: for a nonnegative int below 2 ^ 32 the unsigned conversion is
the identity. -/
theorem toU32_of_nonneg (t : Int) (h0 : 0 ≤ t) (h1 : t < 2 ^ 32) :
    toU32 t = t.toNat := by
  unfold toU32
  omega

/-- Helper: the memory alert is in the evaluation result iff the converted
memory comparison of line 155 holds. -/
theorem alert_mem_iff (s : Snapshot) (mem_t cpu_t io_t : Int) :
    Alert.mem ∈ evaluate s mem_t cpu_t io_t ↔ s.free_mem_mib < toU32 mem_t := by
  simp [evaluate]

/-- Helper: the CPU alert is in the evaluation result iff the converted
load comparison of line 159 holds. -/
theorem alert_cpu_iff (s : Snapshot) (mem_t cpu_t io_t : Int) :
    Alert.cpu ∈ evaluate s mem_t cpu_t io_t ↔ s.load_pct > toU32 cpu_t := by
  simp [evaluate]

/-- Helper: the I/O alert is in the evaluation result iff the converted
rate comparison of line 164 holds. -/
theorem alert_io_iff (s : Snapshot) (mem_t cpu_t io_t : Int) :
    Alert.io ∈ evaluate s mem_t cpu_t io_t ↔ s.io_rate_sps > toU32 io_t := by
  simp [evaluate]

/-- Helper: once the flag is set, no run of fallback ticks ever emits the
diagnostic again. -/
theorem run_fallback_no_emit (pageSize : Nat) (ts : List (Nat × Nat)) :
    ∀ st : IoState, st.io_fallback_logged = true →
      run_fallback pageSize st ts = List.replicate ts.length false := by
  induction ts with
  | nil => intro st h; rfl
  | cons t ts ih =>
    intro st h
    simp [run_fallback, collect_disk_ios_fallback, h, ih, List.replicate_succ]

/-- C2 counterexample: with first counter value c = 0 the code records the
baseline as 0, which it cannot distinguish from no prior sample, so the
second call with counter 0 + 10 returns 0 instead of 10 / 5 = 2. -/
theorem c2_zero_baseline_counterexample :
    rate_delta_step 0 0 = (0, 0) ∧
    (rate_delta_step (rate_delta_step 0 0).2 10).1 = 0 ∧
    (10 : Nat) / 5 = 2 ∧
    (rate_delta_step (rate_delta_step 0 0).2 10).1 ≠ 10 / 5 := by
  decide

/-- C2 amended: for every nonzero counter value c, the first call returns
rate 0 and records c as the baseline; a second call with counter c + k
(within u64) returns k / 5 truncated to u32. -/
theorem c2_rate_estimator_first_and_second_call (c k : Nat) (hc : c ≠ 0)
    (hk : c + k < 2 ^ 64) :
    rate_delta_step 0 c = (0, c) ∧
    (rate_delta_step c (c + k)).1 = k / 5 % 2 ^ 32 ∧
    (rate_delta_step c (c + k)).2 = c + k := by
  refine ⟨by simp [rate_delta_step], ?_, by simp [rate_delta_step, hc]⟩
  have h1 : c + k + 2 ^ 64 - c = k + 2 ^ 64 := by omega
  simp only [rate_delta_step, if_neg hc, h1, Nat.add_mod_right,
    Nat.mod_eq_of_lt (show k < 2 ^ 64 by omega)]

/-- Witness for the amended C2 theorem at c = 1, k = 10. -/
theorem c2_rate_estimator_witness :
    rate_delta_step 0 1 = (0, 1) ∧
    (rate_delta_step 1 (1 + 10)).1 = 10 / 5 % 2 ^ 32 ∧
    (rate_delta_step 1 (1 + 10)).2 = 1 + 10 :=
  c2_rate_estimator_first_and_second_call 1 10 (by decide) (by norm_num)

/-- C3 counterexample: with previous = 10 and counter = 5 the code computes
the wrapped u64 delta 2 ^ 64 - 5, not the saturated delta 0, so the
returned rate is (2 ^ 64 - 5) / 5 % 2 ^ 32 = 858993458 rather than 0. -/
theorem c3_wraparound_counterexample :
    rate_saturating 10 5 = 0 ∧
    (rate_delta_step 10 5).1 = 858993458 ∧
    (rate_delta_step 10 5).1 ≠ rate_saturating 10 5 := by
  refine ⟨by decide, ?_, ?_⟩ <;> decide

/-- C3 amended: after a baseline is established (nonzero last_io_ticks) the
rate is the u64 difference wrapping modulo 2 ^ 64, divided by 5 and
truncated to u32 - wrapping, never saturating, arithmetic: when the counter
drops, the delta becomes the huge value 2 ^ 64 - (previous - counter) -
and previous is then set to counter. -/
theorem c3_rate_uses_wrapping_arithmetic (prev counter : Nat)
    (hp : prev ≠ 0) (hp64 : prev < 2 ^ 64) (hc64 : counter < 2 ^ 64) :
    ((prev ≤ counter →
        (rate_delta_step prev counter).1 = (counter - prev) / 5 % 2 ^ 32) ∧
      (counter < prev →
        (rate_delta_step prev counter).1 =
          (2 ^ 64 - (prev - counter)) / 5 % 2 ^ 32)) ∧
    (rate_delta_step prev counter).2 = counter := by
  refine ⟨⟨?_, ?_⟩, by simp [rate_delta_step, hp]⟩
  · intro h
    have h1 : counter + 2 ^ 64 - prev = (counter - prev) + 2 ^ 64 := by omega
    simp only [rate_delta_step, if_neg hp, h1, Nat.add_mod_right,
      Nat.mod_eq_of_lt (show counter - prev < 2 ^ 64 by omega)]
  · intro h
    have h1 : counter + 2 ^ 64 - prev = 2 ^ 64 - (prev - counter) := by omega
    simp only [rate_delta_step, if_neg hp, h1,
      Nat.mod_eq_of_lt (show 2 ^ 64 - (prev - counter) < 2 ^ 64 by omega)]

/-- Witness for the amended C3 theorem at previous = 10, counter = 5. -/
theorem c3_rate_wrapping_witness :
    (((10 : Nat) ≤ 5 →
        (rate_delta_step 10 5).1 = (5 - 10) / 5 % 2 ^ 32) ∧
      ((5 : Nat) < 10 →
        (rate_delta_step 10 5).1 = (2 ^ 64 - (10 - 5)) / 5 % 2 ^ 32)) ∧
    (rate_delta_step 10 5).2 = 5 :=
  c3_rate_uses_wrapping_arithmetic 10 5 (by decide) (by norm_num) (by norm_num)

/-- C4: for nonnegative representable limits the memory alert fires iff
free_memory < memory_floor, the CPU alert iff load_percent > cpu_ceiling,
the I/O alert iff io_rate > io_ceiling, all three checks independent,
strict and produced in one evaluation; with limits 100 / 80 / 5000 the
snapshot (90, 85, 6000) yields exactly the three alerts and the snapshot
(200, 50, 100) yields none. -/
theorem c4_threshold_policy (s : Snapshot) (mem_t cpu_t io_t : Int)
    (hm0 : 0 ≤ mem_t) (hm1 : mem_t < 2 ^ 31)
    (hc0 : 0 ≤ cpu_t) (hc1 : cpu_t < 2 ^ 31)
    (hi0 : 0 ≤ io_t) (hi1 : io_t < 2 ^ 31) :
    ((Alert.mem ∈ evaluate s mem_t cpu_t io_t ↔ (s.free_mem_mib : Int) < mem_t) ∧
     (Alert.cpu ∈ evaluate s mem_t cpu_t io_t ↔ (s.load_pct : Int) > cpu_t) ∧
     (Alert.io ∈ evaluate s mem_t cpu_t io_t ↔ (s.io_rate_sps : Int) > io_t)) ∧
    evaluate ⟨0, 90, 0, 85, 6000⟩ 100 80 5000 = [Alert.mem, Alert.cpu, Alert.io] ∧
    evaluate ⟨0, 200, 0, 50, 100⟩ 100 80 5000 = [] := by
  have hm : toU32 mem_t = mem_t.toNat := toU32_of_nonneg _ hm0 (by omega)
  have hc : toU32 cpu_t = cpu_t.toNat := toU32_of_nonneg _ hc0 (by omega)
  have hi : toU32 io_t = io_t.toNat := toU32_of_nonneg _ hi0 (by omega)
  refine ⟨⟨?_, ?_, ?_⟩, by decide, by decide⟩
  · rw [alert_mem_iff, hm]; omega
  · rw [alert_cpu_iff, hc]; omega
  · rw [alert_io_iff, hi]; omega

/-- Witness for C4 at the default limits and the first scenario snapshot. -/
theorem c4_threshold_policy_witness :
    ((Alert.mem ∈ evaluate ⟨0, 90, 0, 85, 6000⟩ 100 80 5000 ↔ ((90 : Nat) : Int) < 100) ∧
     (Alert.cpu ∈ evaluate ⟨0, 90, 0, 85, 6000⟩ 100 80 5000 ↔ ((85 : Nat) : Int) > 80) ∧
     (Alert.io ∈ evaluate ⟨0, 90, 0, 85, 6000⟩ 100 80 5000 ↔ ((6000 : Nat) : Int) > 5000)) ∧
    evaluate ⟨0, 90, 0, 85, 6000⟩ 100 80 5000 = [Alert.mem, Alert.cpu, Alert.io] ∧
    evaluate ⟨0, 200, 0, 50, 100⟩ 100 80 5000 = [] :=
  c4_threshold_policy ⟨0, 90, 0, 85, 6000⟩ 100 80 5000 (by norm_num) (by norm_num)
    (by norm_num) (by norm_num) (by norm_num) (by norm_num)

/-- C10 counterexample: the claim says a negative mem_threshold makes the
memory alert fire on every tick, but with mem_threshold = -1 (converted to
2 ^ 32 - 1) a snapshot whose free_mem_mib field is the u32 maximum
2 ^ 32 - 1 produces no alert at all. -/
theorem c10_negative_threshold_counterexample :
    evaluate ⟨0, 2 ^ 32 - 1, 0, 0, 0⟩ (-1) 0 0 = [] := by
  decide

/-- C10 amended: a negative threshold t is converted to t + 2 ^ 32, a value
in [2 ^ 31, 2 ^ 32); hence a negative mem_threshold fires the memory alert
on every tick whose free memory field is below 2 ^ 31, and a negative
cpu_threshold or io_threshold never fires while the corresponding field is
at most 2 ^ 31. -/
theorem c10_negative_threshold_behaviour (t : Int)
    (hlo : -(2 ^ 31) ≤ t) (hneg : t < 0) (s : Snapshot)
    (hfree : s.free_mem_mib < 2 ^ 31) (hload : s.load_pct ≤ 2 ^ 31)
    (hio : s.io_rate_sps ≤ 2 ^ 31) (mem_t cpu_t io_t : Int) :
    toU32 t = (t + 2 ^ 32).toNat ∧ 2 ^ 31 ≤ toU32 t ∧
    Alert.mem ∈ evaluate s t cpu_t io_t ∧
    Alert.cpu ∉ evaluate s mem_t t io_t ∧
    Alert.io ∉ evaluate s mem_t cpu_t t := by
  have h1 : toU32 t = (t + 2 ^ 32).toNat := by unfold toU32; omega
  have h2 : 2 ^ 31 ≤ toU32 t := by unfold toU32; omega
  refine ⟨h1, h2, ?_, ?_, ?_⟩
  · rw [alert_mem_iff]; omega
  · rw [alert_cpu_iff]; omega
  · rw [alert_io_iff]; omega

/-- Witness for the amended C10 theorem at t = -5 on a modest snapshot. -/
theorem c10_negative_threshold_witness :
    toU32 (-5) = ((-5 : Int) + 2 ^ 32).toNat ∧ 2 ^ 31 ≤ toU32 (-5) ∧
    Alert.mem ∈ evaluate ⟨0, 90, 0, 85, 6000⟩ (-5) 80 5000 ∧
    Alert.cpu ∉ evaluate ⟨0, 90, 0, 85, 6000⟩ 100 (-5) 5000 ∧
    Alert.io ∉ evaluate ⟨0, 90, 0, 85, 6000⟩ 100 80 (-5) :=
  c10_negative_threshold_behaviour (-5) (by norm_num) (by norm_num)
    ⟨0, 90, 0, 85, 6000⟩ (by norm_num) (by norm_num) (by norm_num) 100 80 5000

/-- C7 counterexample: the pass-through of free <= total breaks at the u32
truncation in collect_memory: with freeram = (2 ^ 32 - 1) * 1024 pages and
totalram = 2 ^ 42 pages the provider invariant free <= total holds, yet
the converted snapshot has free_mem_mib = 2 ^ 32 - 1 and
total_mem_mib = 0. -/
theorem c7_truncation_counterexample :
    (2 ^ 32 - 1) * 1024 ≤ 2 ^ 42 ∧
    (collect_memory ((2 ^ 32 - 1) * 1024) (2 ^ 42)).1 = 2 ^ 32 - 1 ∧
    (collect_memory ((2 ^ 32 - 1) * 1024) (2 ^ 42)).2 = 0 ∧
    ¬ (collect_memory ((2 ^ 32 - 1) * 1024) (2 ^ 42)).1 ≤
        (collect_memory ((2 ^ 32 - 1) * 1024) (2 ^ 42)).2 := by
  refine ⟨by norm_num, ?_, ?_, ?_⟩ <;> decide

/-- C7 amended: whenever the provider reports freeram <= totalram and the
total stays below 2 ^ 42 pages - so that the shifted values fit in u32 and
the cast truncates nothing - the published pair satisfies
free_mem_mib <= total_mem_mib. -/
theorem c7_memory_invariant_passthrough (freeram totalram : Nat)
    (hle : freeram ≤ totalram) (hfit : totalram < 2 ^ 42) :
    (collect_memory freeram totalram).1 ≤ (collect_memory freeram totalram).2 := by
  unfold collect_memory
  simp only [Nat.shiftRight_eq_div_pow]
  have hmono : freeram / 2 ^ 10 ≤ totalram / 2 ^ 10 :=
    Nat.div_le_div_right hle
  have htot : totalram / 2 ^ 10 < 2 ^ 32 := by omega
  rw [Nat.mod_eq_of_lt (by omega), Nat.mod_eq_of_lt htot]
  exact hmono

/-- Witness for the amended C7 theorem at freeram = 1000, totalram = 2000. -/
theorem c7_memory_invariant_witness :
    (collect_memory 1000 2000).1 ≤ (collect_memory 1000 2000).2 :=
  c7_memory_invariant_passthrough 1000 2000 (by norm_num) (by norm_num)

/-- C8: the divisor normalizing the one minute load average is
max(core count, 1), hence at least one for every reported core count,
including zero, and a zero core count is treated exactly as one. -/
theorem c8_load_divisor_never_zero (ncpus avg_fp : Nat) :
    effective_cores ncpus = max ncpus 1 ∧
    0 < effective_cores ncpus ∧
    effective_cores 0 = 1 ∧
    collect_load_percent avg_fp 0 = collect_load_percent avg_fp 1 := by
  refine ⟨rfl, ?_, rfl, rfl⟩
  unfold effective_cores
  omega

/-- C9: starting from the zero initialised module state, the fallback
selection diagnostic is emitted exactly on the first tick that uses the
fallback and never again across any number of subsequent ticks. -/
theorem c9_fallback_diagnostic_once (pageSize : Nat)
    (ticks : List (Nat × Nat)) (h : ticks ≠ []) :
    run_fallback pageSize ⟨0, false⟩ ticks =
      true :: List.replicate (ticks.length - 1) false := by
  cases ticks with
  | nil => exact absurd rfl h
  | cons t ts =>
    simp [run_fallback, collect_disk_ios_fallback, run_fallback_no_emit]

/-- Witness for the C9 theorem on a three tick run. -/
theorem c9_fallback_diagnostic_witness :
    run_fallback 4096 ⟨0, false⟩ [(0, 0), (1, 2), (3, 4)] =
      true ::
        List.replicate (([(0, 0), (1, 2), (3, 4)] : List (Nat × Nat)).length - 1)
          false :=
  c9_fallback_diagnostic_once 4096 [(0, 0), (1, 2), (3, 4)] (by decide)

/-- C5 counterexample: with HZ = 1000 and a tick fired at jiffies 0 whose
body finishes at jiffies 100, the next tick is armed at 5100, not at the
drift free value fire time plus 5000. -/
theorem c5_rearm_drift_counterexample :
    (poll_metrics 1000 100 80 5000 ⟨0, 50, 100, 0, 0, 0, 0, 0⟩
        mod_init_state).2.2.1 = 5100 ∧
    (⟨0, 50, 100, 0, 0, 0, 0, 0⟩ : TickEnv).tFire +
        msecs_to_jiffies 1000 5000 = 5000 ∧
    (poll_metrics 1000 100 80 5000 ⟨0, 50, 100, 0, 0, 0, 0, 0⟩
        mod_init_state).2.2.1 ≠
      (⟨0, 50, 100, 0, 0, 0, 0, 0⟩ : TickEnv).tFire +
        msecs_to_jiffies 1000 5000 := by
  refine ⟨?_, ?_, ?_⟩ <;> decide

/-- C5 amended: the next tick is armed at the jiffies value read at cycle
completion plus the 5 second period, so the execution time of steps 1 to 5,
tRearm - tFire, accumulates as drift over the drift free arming at
fire time plus period. -/
theorem c5_rearm_at_completion_plus_period (hz : Nat)
    (mem_t cpu_t io_t : Int) (env : TickEnv) (st : ModState)
    (h : env.tFire ≤ env.tRearm) :
    (poll_metrics hz mem_t cpu_t io_t env st).2.2.1 =
      env.tRearm + msecs_to_jiffies hz 5000 ∧
    (poll_metrics hz mem_t cpu_t io_t env st).2.2.1 =
      env.tFire + msecs_to_jiffies hz 5000 + (env.tRearm - env.tFire) := by
  refine ⟨rfl, ?_⟩
  show env.tRearm + msecs_to_jiffies hz 5000 =
    env.tFire + msecs_to_jiffies hz 5000 + (env.tRearm - env.tFire)
  omega

/-- Witness for the amended C5 theorem on the drifting tick. -/
theorem c5_rearm_witness :
    (poll_metrics 1000 100 80 5000 ⟨0, 50, 100, 0, 0, 0, 0, 0⟩
        mod_init_state).2.2.1 =
      (⟨0, 50, 100, 0, 0, 0, 0, 0⟩ : TickEnv).tRearm +
        msecs_to_jiffies 1000 5000 ∧
    (poll_metrics 1000 100 80 5000 ⟨0, 50, 100, 0, 0, 0, 0, 0⟩
        mod_init_state).2.2.1 =
      (⟨0, 50, 100, 0, 0, 0, 0, 0⟩ : TickEnv).tFire +
          msecs_to_jiffies 1000 5000 +
        ((⟨0, 50, 100, 0, 0, 0, 0, 0⟩ : TickEnv).tRearm -
          (⟨0, 50, 100, 0, 0, 0, 0, 0⟩ : TickEnv).tFire) :=
  c5_rearm_at_completion_plus_period 1000 100 80 5000
    ⟨0, 50, 100, 0, 0, 0, 0, 0⟩ mod_init_state (by decide)

/-- C6: before the first publish the reader returns the defined zero valued
snapshot coming from the zero initialised static struct, never an error;
and after a tick publishes its snapshot the reader returns exactly the
published value. -/
theorem c6_read_before_and_after_publish :
    proc_show mod_init_state = zeroSnap ∧
    proc_show mod_init_state = ⟨0, 0, 0, 0, 0⟩ ∧
    ∀ (hz : Nat) (mem_t cpu_t io_t : Int) (env : TickEnv) (st : ModState),
      proc_show (poll_metrics hz mem_t cpu_t io_t env st).2.2.2 =
        (poll_metrics hz mem_t cpu_t io_t env st).1 :=
  ⟨rfl, rfl, fun _ _ _ _ _ _ => rfl⟩

/-- Helper: the invariant holds in the load time state. -/
theorem sysInv_init (pubs : Nat → Snapshot) : SysInv pubs initSys := by
  refine ⟨by simp [initSys], fun h => absurd rfl h, ?_, ?_⟩
  · intro k
    constructor
    · intro hk
      exact absurd hk (by simp [initSys])
    · intro _
      show (⟨0, 0⟩ : Cell) = ⟨(snapOfVer pubs 0).field k, 0⟩
      rw [show (snapOfVer pubs 0).field k = 0 from zeroSnap_field k]
  · intro i
    refine ⟨by simp [initSys], ?_, ?_, ?_⟩
    · intro h
      exact absurd h (by simp [initSys])
    · intro k hk
      exact absurd hk (by simp [initSys])
    · intro h
      exact absurd h (by simp [initSys])

/-- Helper: every interleaved step preserves the invariant. -/
theorem sysInv_step (pubs : Nat → Snapshot) (s s' : Sys)
    (hs : Step pubs s s') (hinv : SysInv pubs s) : SysInv pubs s' := by
  obtain ⟨hw6, hW, hSt, hR⟩ := hinv
  cases hs with
  | wAcquire h1 h2 =>
    dsimp only [SysInv]
    refine ⟨by omega, fun _ => rfl, ?_, ?_⟩
    · intro k
      refine ⟨?_, fun _ => (hSt k).2 (by omega)⟩
      intro hk
      exfalso
      omega
    · intro i
      obtain ⟨hpc, hlock, hbuf, hdone⟩ := hR i
      refine ⟨hpc, ?_, hbuf, hdone⟩
      intro hin
      have hl := hlock hin
      rw [h1] at hl
      exact absurd hl (by simp)
  | wWrite k h1 h2 =>
    dsimp only [SysInv]
    have hk5 := k.isLt
    refine ⟨by omega, fun _ => h1, ?_, ?_⟩
    · intro k'
      constructor
      · intro hk'
        by_cases he : k' = k
        · subst he
          rw [Function.update_same]
        · rw [Function.update_noteq he]
          refine (hSt k').1 ?_
          have hv : k'.val ≠ k.val := fun hv => he (Fin.ext hv)
          omega
      · intro hk'
        have hne : k' ≠ k := by
          intro he
          subst he
          omega
        rw [Function.update_noteq hne]
        exact (hSt k').2 (by omega)
    · intro i
      obtain ⟨hpc, hlock, hbuf, hdone⟩ := hR i
      refine ⟨hpc, hlock, ?_, hdone⟩
      intro k' hk'
      exfalso
      have hl := hlock ⟨by omega, hk'.2⟩
      rw [h1] at hl
      exact absurd hl (by simp)
  | wRelease h1 h2 =>
    dsimp only [SysInv]
    refine ⟨by omega, fun h => absurd rfl h, ?_, ?_⟩
    · intro k
      have hk5 := k.isLt
      refine ⟨?_, fun _ => (hSt k).1 (by omega)⟩
      intro hk
      exfalso
      omega
    · intro i
      obtain ⟨hpc, hlock, hbuf, hdone⟩ := hR i
      refine ⟨hpc, ?_, hbuf, hdone⟩
      intro hin
      exfalso
      have hl := hlock hin
      rw [h1] at hl
      exact absurd hl (by simp)
  | rAcquire i h1 h2 =>
    dsimp only [SysInv]
    refine ⟨hw6, ?_, fun k => hSt k, ?_⟩
    · intro h
      exfalso
      have hl := hW h
      rw [h1] at hl
      exact absurd hl (by simp)
    · intro j
      by_cases hij : j = i
      · subst hij
        have hrs := Function.update_same j (⟨1, (s.rs j).buf⟩ : RSt) s.rs
        refine ⟨?_, fun _ => rfl, ?_, ?_⟩
        · rw [hrs]
          show (1 : Nat) ≤ 7
          omega
        · intro k hk
          rw [hrs] at hk
          exfalso
          have hk1 : k.val + 2 ≤ 1 := hk.1
          omega
        · intro h7
          rw [hrs] at h7
          exfalso
          have h17 : (1 : Nat) = 7 := h7
          omega
      · have hrs := Function.update_noteq hij (⟨1, (s.rs i).buf⟩ : RSt) s.rs
        obtain ⟨hpc, hlock, hbuf, hdone⟩ := hR j
        refine ⟨?_, ?_, ?_, ?_⟩
        · rw [hrs]
          exact hpc
        · intro hin
          rw [hrs] at hin
          exfalso
          have hl := hlock hin
          rw [h1] at hl
          exact absurd hl (by simp)
        · intro k hk
          rw [hrs] at hk ⊢
          exact hbuf k hk
        · intro h7
          rw [hrs] at h7 ⊢
          exact hdone h7
  | rRead i k h1 h2 =>
    dsimp only [SysInv]
    have hk5 := k.isLt
    refine ⟨hw6, fun h => hW h, fun k' => hSt k', ?_⟩
    intro j
    by_cases hij : j = i
    · subst hij
      obtain ⟨hpc, hlock, hbuf, hdone⟩ := hR j
      have hrs := Function.update_same j
        (⟨k.val + 2, Function.update (s.rs j).buf k (s.store k)⟩ : RSt) s.rs
      refine ⟨?_, fun _ => h1, ?_, ?_⟩
      · rw [hrs]
        show k.val + 2 ≤ 7
        omega
      · intro k' hk'
        rw [hrs] at hk' ⊢
        have hk'2 : k'.val + 2 ≤ k.val + 2 := hk'.1
        by_cases he : k' = k
        · subst he
          show Function.update (s.rs j).buf k' (s.store k') k' = s.store k'
          rw [Function.update_same]
        · show Function.update (s.rs j).buf k (s.store k) k' = s.store k'
          rw [Function.update_noteq he]
          have hv : k'.val ≠ k.val := fun hv => he (Fin.ext hv)
          exact hbuf k' ⟨by omega, by omega⟩
      · intro h7
        rw [hrs] at h7
        exfalso
        have h27 : k.val + 2 = 7 := h7
        omega
    · obtain ⟨hpc, hlock, hbuf, hdone⟩ := hR j
      have hrs := Function.update_noteq hij
        (⟨k.val + 2, Function.update (s.rs i).buf k (s.store k)⟩ : RSt) s.rs
      refine ⟨?_, ?_, ?_, ?_⟩
      · rw [hrs]
        exact hpc
      · intro hin
        rw [hrs] at hin
        exact hlock hin
      · intro k' hk'
        rw [hrs] at hk' ⊢
        exact hbuf k' hk'
      · intro h7
        rw [hrs] at h7 ⊢
        exact hdone h7
  | rRelease i h1 h2 =>
    dsimp only [SysInv]
    have hw0 : s.wpc = 0 := by
      by_contra hws
      have hl := hW hws
      rw [h1] at hl
      exact absurd hl (by simp)
    refine ⟨hw6, fun h => absurd hw0 h, fun k => hSt k, ?_⟩
    intro j
    by_cases hij : j = i
    · subst hij
      obtain ⟨hpc, hlock, hbuf, hdone⟩ := hR j
      have hrs := Function.update_same j (⟨7, (s.rs j).buf⟩ : RSt) s.rs
      refine ⟨?_, ?_, ?_, ?_⟩
      · rw [hrs]
      · intro hin
        rw [hrs] at hin
        exfalso
        have h76 : (7 : Nat) ≤ 6 := hin.2
        omega
      · intro k' hk'
        rw [hrs] at hk'
        exfalso
        have h76 : (7 : Nat) ≤ 6 := hk'.2
        omega
      · intro _
        refine ⟨s.widx, fun k' => ?_⟩
        rw [hrs]
        show (s.rs j).buf k' = _
        have hb := hbuf k' ⟨by have := k'.isLt; omega, by omega⟩
        rw [hb]
        exact (hSt k').2 (by omega)
    · obtain ⟨hpc, hlock, hbuf, hdone⟩ := hR j
      have hrs := Function.update_noteq hij (⟨7, (s.rs i).buf⟩ : RSt) s.rs
      refine ⟨?_, ?_, ?_, ?_⟩
      · rw [hrs]
        exact hpc
      · intro hin
        rw [hrs] at hin
        exfalso
        have hl := hlock hin
        rw [h1] at hl
        have hji : i = j := by simpa using hl
        exact hij hji.symm
      · intro k' hk'
        rw [hrs] at hk' ⊢
        exact hbuf k' hk'
      · intro h7
        rw [hrs] at h7 ⊢
        exact hdone h7

/-- Helper: the invariant holds in every reachable state. -/
theorem sysInv_reachable (pubs : Nat → Snapshot) (s : Sys)
    (h : Reachable pubs s) : SysInv pubs s := by
  induction h with
  | refl => exact sysInv_init pubs
  | tail hsteps hstep ih => exact sysInv_step pubs _ _ hstep ih

/-- C1: in every reachable interleaving of the fine grained model - any
number of concurrent readers against the sequentially publishing writer -
a finished reader holds, field for field, the complete snapshot of one
single version v (version 0 being the zero initialised struct, version
v + 1 the value of publish v): no returned snapshot mixes fields written
by two different publishes, so each publish replaces the stored value
atomically with respect to concurrent reads. -/
theorem c1_reader_observes_single_publish (pubs : Nat → Snapshot) (s : Sys)
    (h : Reachable pubs s) (i : Nat) (hdone : (s.rs i).pc = 7) :
    ∃ v : Nat, ∀ k : Fin 5,
      (s.rs i).buf k = ⟨(snapOfVer pubs v).field k, v⟩ :=
  ((sysInv_reachable pubs s h).2.2.2 i).2.2.2 hdone

/-- Witness for the C1 theorem: a concrete seven step run in which reader 0
acquires the lock, copies the five fields and releases, before any
publish. -/
theorem c1_reader_witness :
    ∃ s : Sys, Reachable (fun _ => zeroSnap) s ∧ (s.rs 0).pc = 7 ∧
      ∃ v : Nat, ∀ k : Fin 5,
        (s.rs 0).buf k = ⟨(snapOfVer (fun _ => zeroSnap) v).field k, v⟩ := by
  have t0 : Relation.ReflTransGen (Step (fun _ => zeroSnap)) initSys initSys :=
    Relation.ReflTransGen.refl
  have t1 := t0.tail (Step.rAcquire initSys 0 rfl rfl)
  have t2 := t1.tail (Step.rRead _ 0 0 rfl rfl)
  have t3 := t2.tail (Step.rRead _ 0 1 rfl rfl)
  have t4 := t3.tail (Step.rRead _ 0 2 rfl rfl)
  have t5 := t4.tail (Step.rRead _ 0 3 rfl rfl)
  have t6 := t5.tail (Step.rRead _ 0 4 rfl rfl)
  have t7 := t6.tail (Step.rRelease _ 0 rfl rfl)
  exact ⟨_, t7, rfl, c1_reader_observes_single_publish _ _ t7 0 rfl⟩
